import Mathlib

/-!
# Verification of the pynecil characteristic codec table and read/write protocol

Shallow embedding of `src/pynecil/types.py`, `src/pynecil/const.py` and
`src/pynecil/client.py`.  Python enums become Lean inductives, the dynamic
values handled by the registry's converter/validator lambdas become an
explicit `PyVal` type, Python `float` arithmetic on tenth-scaled values is
modelled by exact rationals (all values compared here are decimal literals
for which the two agree), and raised exceptions become `Except`/`Option`
results.  The BLE transport is modelled by the list of transport calls an
operation performs.
-/

namespace Pynecil

/-! ## Enums from `types.py` -/

/-- `CharLive` members (types.py). -/
inductive CharLive
  | LIVE_TEMP | SETPOINT_TEMP | DC_VOLTAGE | HANDLE_TEMP | PWM_LEVEL
  | POWER_SRC | TIP_RESISTANCE | UPTIME | MOVEMENT_TIME | MAX_TIP_TEMP_ABILITY
  | TIP_VOLTAGE | HALL_SENSOR | OPERATING_MODE | ESTIMATED_POWER
deriving DecidableEq, Fintype, Repr

/-- `CharSetting` members (types.py). -/
inductive CharSetting
  | SETPOINT_TEMP | SLEEP_TEMP | SLEEP_TIMEOUT | MIN_DC_VOLTAGE_CELLS
  | MIN_VOLTAGE_PER_CELL | QC_IDEAL_VOLTAGE | ORIENTATION_MODE
  | ACCEL_SENSITIVITY | ANIMATION_LOOP | ANIMATION_SPEED | AUTOSTART_MODE
  | SHUTDOWN_TIME | COOLING_TEMP_BLINK | IDLE_SCREEN_DETAILS
  | SOLDER_SCREEN_DETAILS | TEMP_UNIT | DESC_SCROLL_SPEED | LOCKING_MODE
  | KEEP_AWAKE_PULSE_POWER | KEEP_AWAKE_PULSE_DELAY | KEEP_AWAKE_PULSE_DURATION
  | VOLTAGE_DIV | BOOST_TEMP | CALIBRATION_OFFSET | POWER_LIMIT
  | INVERT_BUTTONS | TEMP_INCREMENT_LONG | TEMP_INCREMENT_SHORT
  | HALL_SENSITIVITY | ACCEL_WARN_COUNTER | PD_WARN_COUNTER | UI_LANGUAGE
  | PD_NEGOTIATION_TIMEOUT | DISPLAY_INVERT | DISPLAY_BRIGHTNESS
  | LOGO_DURATION | CALIBRATE_CJC | BLE_ENABLED | USB_PD_MODE
  | SETTINGS_RESET | SETTINGS_SAVE
deriving DecidableEq, Fintype, Repr

/-- `CharBulk` members (types.py). -/
inductive CharBulk
  | LIVE_DATA | ACCEL_NAME | BUILD | DEVICE_SN | DEVICE_ID
deriving DecidableEq, Fintype, Repr

/-- The common base class `Characteristic` of types.py: a value of any of the
three characteristic enums. -/
inductive Characteristic
  | live (c : CharLive)
  | setting (c : CharSetting)
  | bulk (c : CharBulk)
deriving DecidableEq, Fintype, Repr

/-- `PowerSource` (types.py). -/
inductive PowerSource
  | DC | QC | PD_VBUS | PD
deriving DecidableEq, Fintype, Repr

/-- `PowerSource` member values. -/
def PowerSource.value : PowerSource → Nat
  | .DC => 0 | .QC => 1 | .PD_VBUS => 2 | .PD => 3

/-- `PowerSource(n)` enum construction: `none` models the `ValueError` raised
on an integer outside the domain. -/
def PowerSource.ofInt? (n : Nat) : Option PowerSource :=
  match n with
  | 0 => some .DC | 1 => some .QC | 2 => some .PD_VBUS | 3 => some .PD
  | _ => none

/-- `OperatingMode` (types.py). -/
inductive OperatingMode
  | IDLE | SOLDERING | BOOST | SLEEPING | SETTINGS | DEBUG
deriving DecidableEq, Fintype, Repr

/-- `OperatingMode` member values. -/
def OperatingMode.value : OperatingMode → Nat
  | .IDLE => 0 | .SOLDERING => 1 | .BOOST => 2 | .SLEEPING => 3
  | .SETTINGS => 4 | .DEBUG => 5

/-- `OperatingMode(n)` enum construction. -/
def OperatingMode.ofInt? (n : Nat) : Option OperatingMode :=
  match n with
  | 0 => some .IDLE | 1 => some .SOLDERING | 2 => some .BOOST
  | 3 => some .SLEEPING | 4 => some .SETTINGS | 5 => some .DEBUG
  | _ => none

/-- `LanguageCode` (types.py): the known-language hash table. -/
inductive LanguageCode
  | BE | BG | CS | DA | DE | EL | EN | ES | ET | FI | FR | HR | HU | IT
  | JA_JP | LT | NB | NL | NL_BE | PL | PT | RO | RU | SK | SL | SR_CYRL
  | SR_LATN | SV | TR | UK | VI | YUE_HK | ZH_CN | ZH_TW
deriving DecidableEq, Fintype, Repr

/-- `LanguageCode` member values (the pre-computed hash constants). -/
def LanguageCode.value : LanguageCode → Nat
  | .BE => 60301 | .BG => 15395 | .CS => 36791 | .DA => 63942 | .DE => 5496
  | .EL => 5003 | .EN => 41431 | .ES => 38713 | .ET => 18074 | .FI => 25411
  | .FR => 38783 | .HR => 49773 | .HU => 19902 | .IT => 57867
  | .JA_JP => 2385 | .LT => 5183 | .NB => 31043 | .NL => 22266
  | .NL_BE => 55046 | .PL => 55968 | .PT => 56922 | .RO => 61480
  | .RU => 26979 | .SK => 13916 | .SL => 21931 | .SR_CYRL => 41427
  | .SR_LATN => 61017 | .SV => 65456 | .TR => 9120 | .UK => 29374
  | .VI => 20758 | .YUE_HK => 17119 | .ZH_CN => 44731 | .ZH_TW => 34289

/-- `LanguageCode(n)` enum construction: looks `n` up among the member values,
`none` models the `ValueError` on an unknown integer. -/
def LanguageCode.ofInt? (n : Nat) : Option LanguageCode :=
  match n with
  | 60301 => some .BE | 15395 => some .BG | 36791 => some .CS
  | 63942 => some .DA | 5496 => some .DE | 5003 => some .EL
  | 41431 => some .EN | 38713 => some .ES | 18074 => some .ET
  | 25411 => some .FI | 38783 => some .FR | 49773 => some .HR
  | 19902 => some .HU | 57867 => some .IT | 2385 => some .JA_JP
  | 5183 => some .LT | 31043 => some .NB | 22266 => some .NL
  | 55046 => some .NL_BE | 55968 => some .PL | 56922 => some .PT
  | 61480 => some .RO | 26979 => some .RU | 13916 => some .SK
  | 21931 => some .SL | 41427 => some .SR_CYRL | 61017 => some .SR_LATN
  | 65456 => some .SV | 9120 => some .TR | 29374 => some .UK
  | 20758 => some .VI | 17119 => some .YUE_HK | 44731 => some .ZH_CN
  | 34289 => some .ZH_TW
  | _ => none

/-- `BatteryType` (types.py). -/
inductive BatteryType
  | NO_BATTERY | BATTERY_3S | BATTERY_4S | BATTERY_5S | BATTERY_6S
deriving DecidableEq, Fintype, Repr

/-- `BatteryType` member values. -/
def BatteryType.value : BatteryType → Nat
  | .NO_BATTERY => 0 | .BATTERY_3S => 1 | .BATTERY_4S => 2
  | .BATTERY_5S => 3 | .BATTERY_6S => 4

/-- `BatteryType(n)` enum construction. -/
def BatteryType.ofInt? (n : Nat) : Option BatteryType :=
  match n with
  | 0 => some .NO_BATTERY | 1 => some .BATTERY_3S | 2 => some .BATTERY_4S
  | 3 => some .BATTERY_5S | 4 => some .BATTERY_6S
  | _ => none

/-- `ScreenOrientationMode` (types.py). -/
inductive ScreenOrientationMode
  | RIGHT_HANDED | LEFT_HANDED | AUTO
deriving DecidableEq, Fintype, Repr

/-- `ScreenOrientationMode` member values. -/
def ScreenOrientationMode.value : ScreenOrientationMode → Nat
  | .RIGHT_HANDED => 0 | .LEFT_HANDED => 1 | .AUTO => 2

/-- `ScreenOrientationMode(n)` enum construction. -/
def ScreenOrientationMode.ofInt? (n : Nat) : Option ScreenOrientationMode :=
  match n with
  | 0 => some .RIGHT_HANDED | 1 => some .LEFT_HANDED | 2 => some .AUTO
  | _ => none

/-- `AnimationSpeed` (types.py). -/
inductive AnimationSpeed
  | OFF | SLOW | MEDIUM | FAST
deriving DecidableEq, Fintype, Repr

/-- `AnimationSpeed` member values. -/
def AnimationSpeed.value : AnimationSpeed → Nat
  | .OFF => 0 | .SLOW => 1 | .MEDIUM => 2 | .FAST => 3

/-- `AnimationSpeed(n)` enum construction. -/
def AnimationSpeed.ofInt? (n : Nat) : Option AnimationSpeed :=
  match n with
  | 0 => some .OFF | 1 => some .SLOW | 2 => some .MEDIUM | 3 => some .FAST
  | _ => none

/-- `AutostartMode` (types.py). -/
inductive AutostartMode
  | DISABLED | SOLDERING | SLEEPING | IDLE
deriving DecidableEq, Fintype, Repr

/-- `AutostartMode` member values. -/
def AutostartMode.value : AutostartMode → Nat
  | .DISABLED => 0 | .SOLDERING => 1 | .SLEEPING => 2 | .IDLE => 3

/-- `AutostartMode(n)` enum construction. -/
def AutostartMode.ofInt? (n : Nat) : Option AutostartMode :=
  match n with
  | 0 => some .DISABLED | 1 => some .SOLDERING | 2 => some .SLEEPING
  | 3 => some .IDLE
  | _ => none

/-- `TempUnit` (types.py). -/
inductive TempUnit
  | CELSIUS | FAHRENHEIT
deriving DecidableEq, Fintype, Repr

/-- `TempUnit` member values. -/
def TempUnit.value : TempUnit → Nat
  | .CELSIUS => 0 | .FAHRENHEIT => 1

/-- `TempUnit(n)` enum construction. -/
def TempUnit.ofInt? (n : Nat) : Option TempUnit :=
  match n with
  | 0 => some .CELSIUS | 1 => some .FAHRENHEIT
  | _ => none

/-- `ScrollSpeed` (types.py). -/
inductive ScrollSpeed
  | SLOW | FAST
deriving DecidableEq, Fintype, Repr

/-- `ScrollSpeed` member values. -/
def ScrollSpeed.value : ScrollSpeed → Nat
  | .SLOW => 0 | .FAST => 1

/-- `ScrollSpeed(n)` enum construction. -/
def ScrollSpeed.ofInt? (n : Nat) : Option ScrollSpeed :=
  match n with
  | 0 => some .SLOW | 1 => some .FAST
  | _ => none

/-- `LockingMode` (types.py). -/
inductive LockingMode
  | OFF | BOOST_ONLY | FULL_LOCKING
deriving DecidableEq, Fintype, Repr

/-- `LockingMode` member values. -/
def LockingMode.value : LockingMode → Nat
  | .OFF => 0 | .BOOST_ONLY => 1 | .FULL_LOCKING => 2

/-- `LockingMode(n)` enum construction. -/
def LockingMode.ofInt? (n : Nat) : Option LockingMode :=
  match n with
  | 0 => some .OFF | 1 => some .BOOST_ONLY | 2 => some .FULL_LOCKING
  | _ => none

/-- `LogoDuration` (types.py).  A plain `Enum`, not an `IntEnum`: its members
do not support `int()` conversion. -/
inductive LogoDuration
  | OFF | SECONDS_1 | SECONDS_2 | SECONDS_3 | SECONDS_4 | SECONDS_5 | LOOP
deriving DecidableEq, Fintype, Repr

/-- `LogoDuration` member values. -/
def LogoDuration.value : LogoDuration → Nat
  | .OFF => 0 | .SECONDS_1 => 1 | .SECONDS_2 => 2 | .SECONDS_3 => 3
  | .SECONDS_4 => 4 | .SECONDS_5 => 5 | .LOOP => 6

/-- `LogoDuration(n)` enum construction. -/
def LogoDuration.ofInt? (n : Nat) : Option LogoDuration :=
  match n with
  | 0 => some .OFF | 1 => some .SECONDS_1 | 2 => some .SECONDS_2
  | 3 => some .SECONDS_3 | 4 => some .SECONDS_4 | 5 => some .SECONDS_5
  | 6 => some .LOOP
  | _ => none

/-! ## Dynamic Python values

The registry's converter/validator lambdas take `Any`.  `PyVal` covers the
value kinds that can reach them: integers, floats (modelled by exact
rationals), booleans, strings and enum members. -/

/-- An enum member, tagged by which enum class it belongs to (so that
`isinstance` checks can be modelled). -/
inductive EnumVal
  | powerSource (v : PowerSource)
  | operatingMode (v : OperatingMode)
  | languageCode (v : LanguageCode)
  | batteryType (v : BatteryType)
  | screenOrientationMode (v : ScreenOrientationMode)
  | animationSpeed (v : AnimationSpeed)
  | autostartMode (v : AutostartMode)
  | tempUnit (v : TempUnit)
  | scrollSpeed (v : ScrollSpeed)
  | lockingMode (v : LockingMode)
  | logoDuration (v : LogoDuration)
deriving DecidableEq, Repr

/-- The enum classes appearing in the registry's lambdas. -/
inductive EnumKind
  | powerSource | operatingMode | languageCode | batteryType
  | screenOrientationMode | animationSpeed | autostartMode | tempUnit
  | scrollSpeed | lockingMode | logoDuration
deriving DecidableEq, Repr

/-- The enum class an `EnumVal` belongs to (`isinstance(x, K)`). -/
def EnumVal.kind : EnumVal → EnumKind
  | .powerSource _ => .powerSource
  | .operatingMode _ => .operatingMode
  | .languageCode _ => .languageCode
  | .batteryType _ => .batteryType
  | .screenOrientationMode _ => .screenOrientationMode
  | .animationSpeed _ => .animationSpeed
  | .autostartMode _ => .autostartMode
  | .tempUnit _ => .tempUnit
  | .scrollSpeed _ => .scrollSpeed
  | .lockingMode _ => .lockingMode
  | .logoDuration _ => .logoDuration

/-- `x.value` for an enum member. -/
def EnumVal.value : EnumVal → Nat
  | .powerSource v => v.value
  | .operatingMode v => v.value
  | .languageCode v => v.value
  | .batteryType v => v.value
  | .screenOrientationMode v => v.value
  | .animationSpeed v => v.value
  | .autostartMode v => v.value
  | .tempUnit v => v.value
  | .scrollSpeed v => v.value
  | .lockingMode v => v.value
  | .logoDuration v => v.value

/-- `K(n)` enum construction for the enum class `k`: `none` models the
`ValueError` raised on an out-of-domain integer. -/
def EnumKind.ofInt? : EnumKind → Nat → Option EnumVal
  | .powerSource, n => (PowerSource.ofInt? n).map .powerSource
  | .operatingMode, n => (OperatingMode.ofInt? n).map .operatingMode
  | .languageCode, n => (LanguageCode.ofInt? n).map .languageCode
  | .batteryType, n => (BatteryType.ofInt? n).map .batteryType
  | .screenOrientationMode, n =>
      (ScreenOrientationMode.ofInt? n).map .screenOrientationMode
  | .animationSpeed, n => (AnimationSpeed.ofInt? n).map .animationSpeed
  | .autostartMode, n => (AutostartMode.ofInt? n).map .autostartMode
  | .tempUnit, n => (TempUnit.ofInt? n).map .tempUnit
  | .scrollSpeed, n => (ScrollSpeed.ofInt? n).map .scrollSpeed
  | .lockingMode, n => (LockingMode.ofInt? n).map .lockingMode
  | .logoDuration, n => (LogoDuration.ofInt? n).map .logoDuration

/-- A dynamic Python value handed to `Pynecil.write` / a converter lambda. -/
inductive PyVal
  | int (n : Int)
  | float (q : ℚ)
  | bool (b : Bool)
  | str (s : String)
  | enum (e : EnumVal)
deriving DecidableEq, Repr

/-- Exceptions the codec pipeline can raise, by Python exception class. -/
inductive PyErr
  | typeError
  | valueError
  | attributeError
  | overflowError
deriving DecidableEq, Repr

deriving instance DecidableEq for Except

/-- Python truthiness, `bool(x)`. -/
def pyTruthy : PyVal → Bool
  | .int n => n != 0
  | .float q => q != 0
  | .bool b => b
  | .str s => s != ""
  | .enum _ => true

/-- Truncation toward zero of a rational, which is what Python `int()` does
to a `float`. -/
def ratTrunc (q : ℚ) : Int := q.num / (q.den : Int)

/-- Python `int(x)`.  Plain `Enum` members (all enums of types.py) raise
`TypeError`; non-numeric strings raise `ValueError`; floats truncate toward
zero; `bool` is an `int` subclass. -/
def pyInt : PyVal → Except PyErr Int
  | .int n => .ok n
  | .float q => .ok (ratTrunc q)
  | .bool b => .ok (if b then 1 else 0)
  | .str s => match s.toInt? with
      | some n => .ok n
      | none => .error .valueError
  | .enum _ => .error .typeError

/-! ## Scalar codecs from `client.py` -/

/-- `decode_int`: unsigned little-endian integer from a bytearray. -/
def decode_int (value : List Nat) : Nat :=
  value.foldr (fun b acc => b + 256 * acc) 0

/-- `clip(a, a_min, a_max)` from client.py:
`a = min(a, a_max); return max(a, a_min)`. -/
def clip (a aMin aMax : Int) : Int := max (min a aMax) aMin

/-- `encode_int`: `value.to_bytes(2, byteorder="little", signed=False)`;
`none` models the `OverflowError` raised when the value is negative or does
not fit in two bytes. -/
def encode_int (value : Int) : Option (List Nat) :=
  if 0 ≤ value ∧ value < 65536 then
    some [value.toNat % 256, value.toNat / 256]
  else none

/-! ## UTF-8 (for `str.encode("utf-8")` / `decode_str`) -/

/-- UTF-8 encoding of one code point (`str.encode("utf-8")`, per char). -/
def utf8EncodeChar (c : Char) : List Nat :=
  let n := c.toNat
  if n < 0x80 then [n]
  else if n < 0x800 then [0xC0 + n / 64, 0x80 + n % 64]
  else if n < 0x10000 then
    [0xE0 + n / 4096, 0x80 + n / 64 % 64, 0x80 + n % 64]
  else
    [0xF0 + n / 262144, 0x80 + n / 4096 % 64, 0x80 + n / 64 % 64,
      0x80 + n % 64]

/-- `s.encode("utf-8")` as a byte list. -/
def utf8Bytes (s : String) : List Nat :=
  s.data.foldr (fun c acc => utf8EncodeChar c ++ acc) []

/-- Strict UTF-8 decoding of a byte list into code points, rejecting
continuation errors, overlong forms, surrogates and values above U+10FFFF —
the checks CPython's strict `bytes.decode("utf-8")` performs.  `none` models
the raised `UnicodeDecodeError`. -/
def utf8DecodeAux : List Nat → Option (List Char)
  | [] => some []
  | b :: rest =>
    if b < 0x80 then
      (utf8DecodeAux rest).map (Char.ofNat b :: ·)
    else if b < 0xC2 then none
    else if b < 0xE0 then
      match rest with
      | c1 :: rest1 =>
        if 0x80 ≤ c1 ∧ c1 < 0xC0 then
          (utf8DecodeAux rest1).map
            (Char.ofNat ((b - 0xC0) * 64 + (c1 - 0x80)) :: ·)
        else none
      | _ => none
    else if b < 0xF0 then
      match rest with
      | c1 :: c2 :: rest2 =>
        let lo1 := if b = 0xE0 then 0xA0 else 0x80
        let hi1 := if b = 0xED then 0xA0 else 0xC0
        if (lo1 ≤ c1 ∧ c1 < hi1) ∧ (0x80 ≤ c2 ∧ c2 < 0xC0) then
          (utf8DecodeAux rest2).map
            (Char.ofNat ((b - 0xE0) * 4096 + (c1 - 0x80) * 64 + (c2 - 0x80))
              :: ·)
        else none
      | _ => none
    else if b < 0xF5 then
      match rest with
      | c1 :: c2 :: c3 :: rest3 =>
        let lo1 := if b = 0xF0 then 0x90 else 0x80
        let hi1 := if b = 0xF4 then 0x90 else 0xC0
        if (lo1 ≤ c1 ∧ c1 < hi1) ∧ (0x80 ≤ c2 ∧ c2 < 0xC0) ∧
            (0x80 ≤ c3 ∧ c3 < 0xC0) then
          (utf8DecodeAux rest3).map
            (Char.ofNat ((b - 0xF0) * 262144 + (c1 - 0x80) * 4096 +
              (c2 - 0x80) * 64 + (c3 - 0x80)) :: ·)
        else none
      | _ => none
    else none

/-- `decode_str`: `value.decode("utf-8")`; `none` is the raised
`UnicodeDecodeError`. -/
def decode_str (value : List Nat) : Option String :=
  (utf8DecodeAux value).map fun cs => String.mk cs

/-! ## SHA-1 (the hash `encode_lang_code` delegates to `hashlib.sha1`) -/

/-- 32-bit left rotation. -/
def rotl32 (n x : Nat) : Nat :=
  ((x <<< n) % 2 ^ 32) ||| (x >>> (32 - n))

/-- Big-endian bytes of `n`, `k` bytes wide. -/
def beBytes (k n : Nat) : List Nat :=
  (List.range k).map fun i => n >>> (8 * (k - 1 - i)) % 256

/-- One 32-bit big-endian word from four bytes. -/
def beWord (bytes : List Nat) : Nat :=
  bytes.foldl (fun acc b => acc * 256 + b) 0

/-- SHA-1 message padding: `0x80`, zeros to 56 mod 64, then the 64-bit
big-endian bit length. -/
def sha1Pad (msg : List Nat) : List Nat :=
  msg ++ [0x80] ++ List.replicate ((119 - msg.length % 64) % 64) 0 ++
    beBytes 8 (8 * msg.length)

/-- The 80-word message schedule of one 64-byte chunk. -/
def sha1Schedule (chunk : List Nat) : Array Nat :=
  let w0 : Array Nat :=
    ((List.range 16).map fun i => beWord ((chunk.drop (4 * i)).take 4)).toArray
  (List.range 64).foldl
    (fun w j =>
      let i := j + 16
      w.push (rotl32 1 ((w.getD (i - 3) 0) ^^^ (w.getD (i - 8) 0) ^^^
        (w.getD (i - 14) 0) ^^^ (w.getD (i - 16) 0))))
    w0

/-- The running SHA-1 state. -/
structure Sha1State where
  h0 : Nat
  h1 : Nat
  h2 : Nat
  h3 : Nat
  h4 : Nat
deriving DecidableEq, Repr

/-- One SHA-1 round: state `(a,b,c,d,e)` with round index `i` and schedule
word `wi`. -/
def sha1Round (i : Nat) (st : Sha1State) (wi : Nat) : Sha1State :=
  let fk : Nat × Nat :=
    if i < 20 then
      ((st.h1 &&& st.h2) ||| ((st.h1 ^^^ 0xFFFFFFFF) &&& st.h3), 0x5A827999)
    else if i < 40 then (st.h1 ^^^ st.h2 ^^^ st.h3, 0x6ED9EBA1)
    else if i < 60 then
      ((st.h1 &&& st.h2) ||| (st.h1 &&& st.h3) ||| (st.h2 &&& st.h3),
        0x8F1BBCDC)
    else (st.h1 ^^^ st.h2 ^^^ st.h3, 0xCA62C1D6)
  let temp := (rotl32 5 st.h0 + fk.1 + st.h4 + fk.2 + wi) % 2 ^ 32
  ⟨temp, st.h0, rotl32 30 st.h1, st.h2, st.h3⟩

/-- Compress one 64-byte chunk into the state. -/
def sha1Compress (st : Sha1State) (chunk : List Nat) : Sha1State :=
  let w := sha1Schedule chunk
  let f := (List.range 80).foldl (fun s i => sha1Round i s (w.getD i 0)) st
  ⟨(st.h0 + f.h0) % 2 ^ 32, (st.h1 + f.h1) % 2 ^ 32, (st.h2 + f.h2) % 2 ^ 32,
    (st.h3 + f.h3) % 2 ^ 32, (st.h4 + f.h4) % 2 ^ 32⟩

/-- SHA-1 of a byte list, as the 160-bit digest read as a big-endian
integer — exactly `int(hashlib.sha1(data).hexdigest(), 16)`. -/
def sha1Nat (msg : List Nat) : Nat :=
  let padded := sha1Pad msg
  let final := (List.range (padded.length / 64)).foldl
    (fun st i => sha1Compress st ((padded.drop (64 * i)).take 64))
    ⟨0x67452301, 0xEFCDAB89, 0x98BADCFE, 0x10325476, 0xC3D2E1F0⟩
  final.h0 * 2 ^ 128 + final.h1 * 2 ^ 96 + final.h2 * 2 ^ 64 +
    final.h3 * 2 ^ 32 + final.h4

set_option maxRecDepth 100000 in
/-- Sanity anchor for the SHA-1 model: the digest of the empty message is
the well-known constant `da39a3ee5e6b4b0d3255bfef95601890afd80709`. -/
theorem sha1Nat_nil :
    sha1Nat [] = 0xda39a3ee5e6b4b0d3255bfef95601890afd80709 := by
  decide

set_option maxRecDepth 100000 in
/-- Sanity anchor for the SHA-1 model together with the UTF-8 encoder:
`SHA1("xx") = dd7b7b74ea160e049dd128478e074ce47254bde8`. -/
theorem sha1Nat_xx :
    sha1Nat (utf8Bytes "xx") =
      0xdd7b7b74ea160e049dd128478e074ce47254bde8 := by
  decide

/-! ## Typed response assembly and the language-code codec -/

/-- `LiveDataResponse` (types.py): the 14 decoded live-telemetry fields, in
the positional order of the dataclass.  Float fields are exact rationals. -/
structure LiveDataResponse where
  live_temp : Nat
  setpoint_temp : Nat
  dc_voltage : ℚ
  handle_temp : ℚ
  pwm_level : Int
  power_src : PowerSource
  tip_resistance : ℚ
  uptime : ℚ
  movement_time : ℚ
  max_tip_temp_ability : Nat
  tip_voltage : Nat
  hall_sensor : Nat
  operating_mode : OperatingMode
  estimated_power : ℚ
deriving DecidableEq, Repr

/-- `decode_live_data` (client.py): `struct.unpack("14I", value)` — exactly
fourteen unsigned little-endian 32-bit words — then the per-field
scale/enum transforms.  `none` models a raised `struct.error` (wrong
payload length) or `ValueError` (enum construction failure). -/
def decode_live_data (value : List Nat) : Option LiveDataResponse :=
  if value.length = 56 then
    let data := fun i => decode_int ((value.drop (4 * i)).take 4)
    match PowerSource.ofInt? (data 5), OperatingMode.ofInt? (data 12) with
    | some ps, some om =>
      some
        { live_temp := data 0
          setpoint_temp := data 1
          dc_voltage := (data 2 : ℚ) / 10
          handle_temp := (data 3 : ℚ) / 10
          pwm_level := ratTrunc ((data 4 : ℚ) / 255 * 100)
          power_src := ps
          tip_resistance := (data 6 : ℚ) / 10
          uptime := (data 7 : ℚ) / 10
          movement_time := (data 8 : ℚ) / 10
          max_tip_temp_ability := data 9
          tip_voltage := data 10
          hall_sensor := data 11
          operating_mode := om
          estimated_power := (data 13 : ℚ) / 10 }
    | _, _ => none
  else none

/-- `encode_lang_code` (client.py): a `LanguageCode` member returns
`int(member.value)` directly; any other value has
`.encode("utf-8")` called on it — a string is hashed with SHA-1 and the
digest integer is reduced `% 0xFFFF` (65535); non-string, non-member
values raise `AttributeError` (no `.encode` method). -/
def encode_lang_code (language_code : PyVal) : Except PyErr Int :=
  match language_code with
  | .enum (.languageCode c) => .ok (c.value : Int)
  | .str s => .ok ((sha1Nat (utf8Bytes s) % 0xFFFF : Nat) : Int)
  | _ => .error .attributeError

/-- The result of `decode_lang_code`: a known member or the raw integer. -/
inductive LangOrInt
  | lang (c : LanguageCode)
  | num (n : Nat)
deriving DecidableEq, Repr

/-- `decode_lang_code` (client.py): try `LanguageCode(decode_int(raw))` and
fall back to the raw integer on `ValueError`. -/
def decode_lang_code (raw : List Nat) : LangOrInt :=
  match LanguageCode.ofInt? (decode_int raw) with
  | some c => .lang c
  | none => .num (decode_int raw)

/-! ## Registry descriptors

The decoder / converter / validator slots of each `CHAR_MAP` entry are
first-order descriptors (one per distinct lambda shape in client.py), with
semantics given by `applyDec`, `applyConv` and `applyValid`.  This keeps
`CHAR_MAP` a decidable-equality value while every descriptor corresponds
one-to-one to a lambda of the source. -/

/-- A decoded read result. -/
inductive DecodedVal
  | int (n : Int)
  | float (q : ℚ)
  | bool (b : Bool)
  | str (s : String)
  | enum (e : EnumVal)
  | live (r : LiveDataResponse)
deriving DecidableEq, Repr

/-- Lowercase hex digits of `n` (Python `f"{n:x}"`). -/
def natToHex (n : Nat) : String := String.mk (Nat.toDigits 16 n)

/-- Zero-padded lowercase hex (Python `f"{n:016x}"` for `width = 16`). -/
def hexPad (width n : Nat) : String :=
  let ds := Nat.toDigits 16 n
  String.mk (List.replicate (width - ds.length) '0' ++ ds)

/-- Decoder descriptors, one per decode lambda shape in `CHAR_MAP`. -/
inductive Dec
  | uint
  | utf8
  | hexSn
  | hexId
  | liveData
  | divTen
  | pwmPercent
  | ofEnum (k : EnumKind)
  | boolNonzero
  | constTrue
  | langCode
  | brightness
deriving DecidableEq, Repr

/-- Decoder semantics.  `none` models a raised exception during decode. -/
def applyDec : Dec → List Nat → Option DecodedVal
  | .uint, raw => some (.int (decode_int raw))
  | .utf8, raw => (decode_str raw).map .str
  | .hexSn, raw => some (.str (hexPad 16 (decode_int raw)))
  | .hexId, raw => some (.str (natToHex (decode_int raw)))
  | .liveData, raw => (decode_live_data raw).map .live
  | .divTen, raw => some (.float ((decode_int raw : ℚ) / 10))
  | .pwmPercent, raw =>
      some (.int (ratTrunc ((decode_int raw : ℚ) / 255 * 100)))
  | .ofEnum k, raw => (k.ofInt? (decode_int raw)).map .enum
  | .boolNonzero, raw => some (.bool (decode_int raw != 0))
  | .constTrue, _ => some (.bool true)
  | .langCode, raw =>
      some (match decode_lang_code raw with
        | .lang c => .enum (.languageCode c)
        | .num n => .int (n : Int))
  | .brightness, raw =>
      some (.int (ratTrunc (((decode_int raw : ℚ) + 24) / 25)))

/-- Converter descriptors, one per converter lambda shape in `CHAR_MAP`. -/
inductive Conv
  | toInt
  | toBool
  | enumOrInt (k : EnumKind)
  | timesTen
  | brightness
  | langCode
deriving DecidableEq, Repr

/-- A converter's output: an `int` or a `bool` (Python `bool` is an `int`
subclass, so validators accept both). -/
inductive ConvOut
  | int (n : Int)
  | bool (b : Bool)
deriving DecidableEq, Repr

/-- The integer a `ConvOut` stands for when used in arithmetic
(`True == 1`, `False == 0`). -/
def ConvOut.toInt : ConvOut → Int
  | .int n => n
  | .bool b => if b then 1 else 0

/-- `int(x * 10)`: Python multiplies first (string repetition for `str`
operands, `TypeError` for enum members), then truncates with `int()`. -/
def pyTimesTenInt : PyVal → Except PyErr Int
  | .int n => .ok (n * 10)
  | .float q => .ok (ratTrunc (q * 10))
  | .bool b => .ok (if b then 10 else 0)
  | .str s =>
      match (String.join (List.replicate 10 s)).toInt? with
      | some n => .ok n
      | none => .error .valueError
  | .enum _ => .error .typeError

/-- `int(25 * x - 24)` (display brightness): arithmetic then truncation;
`str` and enum operands raise `TypeError` on the subtraction /
multiplication. -/
def pyBrightnessInt : PyVal → Except PyErr Int
  | .int n => .ok (25 * n - 24)
  | .float q => .ok (ratTrunc (25 * q - 24))
  | .bool b => .ok (if b then 1 else -24)
  | .str _ => .error .typeError
  | .enum _ => .error .typeError

/-- Converter semantics. -/
def applyConv : Conv → PyVal → Except PyErr ConvOut
  | .toInt, v => (pyInt v).map .int
  | .toBool, v => .ok (.bool (pyTruthy v))
  | .enumOrInt k, v =>
      match v with
      | .enum e =>
          if e.kind = k then .ok (.int (e.value : Int))
          else (pyInt (.enum e)).map .int
      | _ => (pyInt v).map .int
  | .timesTen, v => (pyTimesTenInt v).map .int
  | .brightness, v => (pyBrightnessInt v).map .int
  | .langCode, v => (encode_lang_code v).map .int

/-- Validator descriptors, one per validator lambda shape in `CHAR_MAP`. -/
inductive Valid
  | clip (lo hi : Int)
  | toInt
  | clipUnlessZero (lo hi : Int)
deriving DecidableEq, Repr

/-- Validator semantics.  Validators in `CHAR_MAP` never raise: `clip` is
`min`/`max`, and the `int` validator only ever receives `bool`/`int`
converter output. -/
def applyValid : Valid → ConvOut → Int
  | .clip lo hi, out => clip out.toInt lo hi
  | .toInt, out => out.toInt
  | .clipUnlessZero lo hi, out =>
      if out.toInt ≠ 0 then clip out.toInt lo hi else 0

/-! ## UUID constants from `const.py` (wire identifiers) -/

/-- A wire identifier, kept as its canonical UUID string. -/
abbrev Uuid := String

def CHAR_UUID_BULK_LIVE_DATA : Uuid := "9eae1001-9d0d-48c5-aa55-33e27f9bc533"
def CHAR_UUID_BULK_ACCEL_NAME : Uuid := "9eae1002-9d0d-48c5-aa55-33e27f9bc533"
def CHAR_UUID_BULK_BUILD : Uuid := "9eae1003-9d0d-48c5-aa55-33e27f9bc533"
def CHAR_UUID_BULK_DEVICE_SN : Uuid := "9eae1004-9d0d-48c5-aa55-33e27f9bc533"
def CHAR_UUID_BULK_DEVICE_ID : Uuid := "9eae1005-9d0d-48c5-aa55-33e27f9bc533"
def CHAR_UUID_LIVE_LIVE_TEMP : Uuid := "d85ef001-168e-4a71-aa55-33e27f9bc533"
def CHAR_UUID_LIVE_SETPOINT_TEMP : Uuid := "d85ef002-168e-4a71-aa55-33e27f9bc533"
def CHAR_UUID_LIVE_DC_VOLTAGE : Uuid := "d85ef003-168e-4a71-aa55-33e27f9bc533"
def CHAR_UUID_LIVE_HANDLE_TEMP : Uuid := "d85ef004-168e-4a71-aa55-33e27f9bc533"
def CHAR_UUID_LIVE_PWM_LEVEL : Uuid := "d85ef005-168e-4a71-aa55-33e27f9bc533"
def CHAR_UUID_LIVE_POWER_SRC : Uuid := "d85ef006-168e-4a71-aa55-33e27f9bc533"
def CHAR_UUID_LIVE_TIP_RESISTANCE : Uuid := "d85ef007-168e-4a71-aa55-33e27f9bc533"
def CHAR_UUID_LIVE_UPTIME : Uuid := "d85ef008-168e-4a71-aa55-33e27f9bc533"
def CHAR_UUID_LIVE_MOVEMENT_TIME : Uuid := "d85ef009-168e-4a71-aa55-33e27f9bc533"
def CHAR_UUID_LIVE_MAX_TIP_TEMP_ABILITY : Uuid := "d85ef00a-168e-4a71-aa55-33e27f9bc533"
def CHAR_UUID_LIVE_TIP_VOLTAGE : Uuid := "d85ef00b-168e-4a71-aa55-33e27f9bc533"
def CHAR_UUID_LIVE_HALL_SENSOR : Uuid := "d85ef00c-168e-4a71-aa55-33e27f9bc533"
def CHAR_UUID_LIVE_OPERATING_MODE : Uuid := "d85ef00d-168e-4a71-aa55-33e27f9bc533"
def CHAR_UUID_LIVE_ESTIMATED_POWER : Uuid := "d85ef00e-168e-4a71-aa55-33e27f9bc533"
def CHAR_UUID_SETTINGS_SAVE : Uuid := "f6d7ffff-5a10-4eba-aa55-33e27f9bc533"
def CHAR_UUID_SETTINGS_RESET : Uuid := "f6d7fffe-5a10-4eba-aa55-33e27f9bc533"
def CHAR_UUID_SETTINGS_SETPOINT_TEMP : Uuid := "f6d70000-5a10-4eba-aa55-33e27f9bc533"
def CHAR_UUID_SETTINGS_SLEEP_TEMP : Uuid := "f6d70001-5a10-4eba-aa55-33e27f9bc533"
def CHAR_UUID_SETTINGS_SLEEP_TIMEOUT : Uuid := "f6d70002-5a10-4eba-aa55-33e27f9bc533"
def CHAR_UUID_SETTINGS_MIN_DC_VOLTAGE_CELLS : Uuid := "f6d70003-5a10-4eba-aa55-33e27f9bc533"
def CHAR_UUID_SETTINGS_MIN_VOLTAGE_PER_CELL : Uuid := "f6d70004-5a10-4eba-aa55-33e27f9bc533"
def CHAR_UUID_SETTINGS_QC_IDEAL_VOLTAGE : Uuid := "f6d70005-5a10-4eba-aa55-33e27f9bc533"
def CHAR_UUID_SETTINGS_ORIENTATION_MODE : Uuid := "f6d70006-5a10-4eba-aa55-33e27f9bc533"
def CHAR_UUID_SETTINGS_ACCEL_SENSITIVITY : Uuid := "f6d70007-5a10-4eba-aa55-33e27f9bc533"
def CHAR_UUID_SETTINGS_ANIMATION_LOOP : Uuid := "f6d70008-5a10-4eba-aa55-33e27f9bc533"
def CHAR_UUID_SETTINGS_ANIMATION_SPEED : Uuid := "f6d70009-5a10-4eba-aa55-33e27f9bc533"
def CHAR_UUID_SETTINGS_AUTOSTART_MODE : Uuid := "f6d7000a-5a10-4eba-aa55-33e27f9bc533"
def CHAR_UUID_SETTINGS_SHUTDOWN_TIME : Uuid := "f6d7000b-5a10-4eba-aa55-33e27f9bc533"
def CHAR_UUID_SETTINGS_COOLING_TEMP_BLINK : Uuid := "f6d7000c-5a10-4eba-aa55-33e27f9bc533"
def CHAR_UUID_SETTINGS_IDLE_SCREEN_DETAILS : Uuid := "f6d7000d-5a10-4eba-aa55-33e27f9bc533"
def CHAR_UUID_SETTINGS_SOLDER_SCREEN_DETAILS : Uuid := "f6d7000e-5a10-4eba-aa55-33e27f9bc533"
def CHAR_UUID_SETTINGS_TEMP_UNIT : Uuid := "f6d7000f-5a10-4eba-aa55-33e27f9bc533"
def CHAR_UUID_SETTINGS_DESC_SCROLL_SPEED : Uuid := "f6d70010-5a10-4eba-aa55-33e27f9bc533"
def CHAR_UUID_SETTINGS_LOCKING_MODE : Uuid := "f6d70011-5a10-4eba-aa55-33e27f9bc533"
def CHAR_UUID_SETTINGS_KEEP_AWAKE_PULSE_POWER : Uuid := "f6d70012-5a10-4eba-aa55-33e27f9bc533"
def CHAR_UUID_SETTINGS_KEEP_AWAKE_PULSE_DELAY : Uuid := "f6d70013-5a10-4eba-aa55-33e27f9bc533"
def CHAR_UUID_SETTINGS_KEEP_AWAKE_PULSE_DURATION : Uuid := "f6d70014-5a10-4eba-aa55-33e27f9bc533"
def CHAR_UUID_SETTINGS_VOLTAGE_DIV : Uuid := "f6d70015-5a10-4eba-aa55-33e27f9bc533"
def CHAR_UUID_SETTINGS_BOOST_TEMP : Uuid := "f6d70016-5a10-4eba-aa55-33e27f9bc533"
def CHAR_UUID_SETTINGS_CALIBRATION_OFFSET : Uuid := "f6d70017-5a10-4eba-aa55-33e27f9bc533"
def CHAR_UUID_SETTINGS_POWER_LIMIT : Uuid := "f6d70018-5a10-4eba-aa55-33e27f9bc533"
def CHAR_UUID_SETTINGS_INVERT_BUTTONS : Uuid := "f6d70019-5a10-4eba-aa55-33e27f9bc533"
def CHAR_UUID_SETTINGS_TEMP_INCREMENT_LONG : Uuid := "f6d7001a-5a10-4eba-aa55-33e27f9bc533"
def CHAR_UUID_SETTINGS_TEMP_INCREMENT_SHORT : Uuid := "f6d7001b-5a10-4eba-aa55-33e27f9bc533"
def CHAR_UUID_SETTINGS_HALL_SENSITIVITY : Uuid := "f6d7001c-5a10-4eba-aa55-33e27f9bc533"
def CHAR_UUID_SETTINGS_ACCEL_WARN_COUNTER : Uuid := "f6d7001d-5a10-4eba-aa55-33e27f9bc533"
def CHAR_UUID_SETTINGS_PD_WARN_COUNTER : Uuid := "f6d7001e-5a10-4eba-aa55-33e27f9bc533"
def CHAR_UUID_SETTINGS_UI_LANGUAGE : Uuid := "f6d7001f-5a10-4eba-aa55-33e27f9bc533"
def CHAR_UUID_SETTINGS_PD_NEGOTIATION_TIMEOUT : Uuid := "f6d70020-5a10-4eba-aa55-33e27f9bc533"
def CHAR_UUID_SETTINGS_DISPLAY_INVERT : Uuid := "f6d70021-5a10-4eba-aa55-33e27f9bc533"
def CHAR_UUID_SETTINGS_DISPLAY_BRIGHTNESS : Uuid := "f6d70022-5a10-4eba-aa55-33e27f9bc533"
def CHAR_UUID_SETTINGS_LOGO_DURATION : Uuid := "f6d70023-5a10-4eba-aa55-33e27f9bc533"
def CHAR_UUID_SETTINGS_CALIBRATE_CJC : Uuid := "f6d70024-5a10-4eba-aa55-33e27f9bc533"
def CHAR_UUID_SETTINGS_BLE_ENABLED : Uuid := "f6d70025-5a10-4eba-aa55-33e27f9bc533"
def CHAR_UUID_SETTINGS_USB_PD_MODE : Uuid := "f6d70026-5a10-4eba-aa55-33e27f9bc533"

/-! ## The characteristic registry `CHAR_MAP` -/

/-- One registry entry: the wire identifier, the decoder, and — for the
4-tuples of writable settings — the converter/validator pair (`none` for
the 2-tuple read-only entries). -/
structure Entry where
  uuid : Uuid
  dec : Dec
  cv : Option (Conv × Valid)
deriving DecidableEq, Repr

/-- A 2-tuple (read-only) entry. -/
def roEntry (uuid : Uuid) (dec : Dec) : Entry := ⟨uuid, dec, none⟩

/-- A 4-tuple (writable setting) entry. -/
def rwEntry (uuid : Uuid) (dec : Dec) (cv : Conv) (vd : Valid) : Entry :=
  ⟨uuid, dec, some (cv, vd)⟩

/-- `CHAR_MAP` (client.py): the static registry, as the association list of
the dict literal in source order (its keys are pairwise distinct, so the
list order is irrelevant for lookup). -/
def CHAR_MAP : List (Characteristic × Entry) := [
  (.bulk .LIVE_DATA, roEntry CHAR_UUID_BULK_LIVE_DATA .liveData),
  (.bulk .BUILD, roEntry CHAR_UUID_BULK_BUILD .utf8),
  (.bulk .DEVICE_SN, roEntry CHAR_UUID_BULK_DEVICE_SN .hexSn),
  (.bulk .DEVICE_ID, roEntry CHAR_UUID_BULK_DEVICE_ID .hexId),
  (.live .LIVE_TEMP, roEntry CHAR_UUID_LIVE_LIVE_TEMP .uint),
  (.live .SETPOINT_TEMP, roEntry CHAR_UUID_LIVE_SETPOINT_TEMP .uint),
  (.live .DC_VOLTAGE, roEntry CHAR_UUID_LIVE_DC_VOLTAGE .divTen),
  (.live .HANDLE_TEMP, roEntry CHAR_UUID_LIVE_HANDLE_TEMP .divTen),
  (.live .PWM_LEVEL, roEntry CHAR_UUID_LIVE_PWM_LEVEL .pwmPercent),
  (.live .POWER_SRC, roEntry CHAR_UUID_LIVE_POWER_SRC (.ofEnum .powerSource)),
  (.live .TIP_RESISTANCE, roEntry CHAR_UUID_LIVE_TIP_RESISTANCE .divTen),
  (.live .UPTIME, roEntry CHAR_UUID_LIVE_UPTIME .divTen),
  (.live .MOVEMENT_TIME, roEntry CHAR_UUID_LIVE_MOVEMENT_TIME .divTen),
  (.live .TIP_VOLTAGE, roEntry CHAR_UUID_LIVE_TIP_VOLTAGE .uint),
  (.live .HALL_SENSOR, roEntry CHAR_UUID_LIVE_HALL_SENSOR .uint),
  (.live .OPERATING_MODE,
    roEntry CHAR_UUID_LIVE_OPERATING_MODE (.ofEnum .operatingMode)),
  (.live .ESTIMATED_POWER, roEntry CHAR_UUID_LIVE_ESTIMATED_POWER .uint),
  (.setting .SETPOINT_TEMP,
    rwEntry CHAR_UUID_SETTINGS_SETPOINT_TEMP .uint .toInt (.clip 10 450)),
  (.setting .SLEEP_TEMP,
    rwEntry CHAR_UUID_SETTINGS_SLEEP_TEMP .uint .toInt (.clip 10 450)),
  (.setting .SLEEP_TIMEOUT,
    rwEntry CHAR_UUID_SETTINGS_SLEEP_TIMEOUT .uint .toInt (.clip 0 15)),
  (.setting .MIN_DC_VOLTAGE_CELLS,
    rwEntry CHAR_UUID_SETTINGS_MIN_DC_VOLTAGE_CELLS (.ofEnum .batteryType)
      (.enumOrInt .batteryType) (.clip 0 4)),
  (.setting .MIN_VOLTAGE_PER_CELL,
    rwEntry CHAR_UUID_SETTINGS_MIN_VOLTAGE_PER_CELL .divTen .timesTen
      (.clip 24 38)),
  (.setting .QC_IDEAL_VOLTAGE,
    rwEntry CHAR_UUID_SETTINGS_QC_IDEAL_VOLTAGE .divTen .timesTen (.clip 90 220)),
  (.setting .ORIENTATION_MODE,
    rwEntry CHAR_UUID_SETTINGS_ORIENTATION_MODE (.ofEnum .screenOrientationMode)
      (.enumOrInt .screenOrientationMode) (.clip 0 2)),
  (.setting .ACCEL_SENSITIVITY,
    rwEntry CHAR_UUID_SETTINGS_ACCEL_SENSITIVITY .uint .toInt (.clip 0 9)),
  (.setting .ANIMATION_LOOP,
    rwEntry CHAR_UUID_SETTINGS_ANIMATION_LOOP .boolNonzero .toBool .toInt),
  (.setting .ANIMATION_SPEED,
    rwEntry CHAR_UUID_SETTINGS_ANIMATION_SPEED (.ofEnum .animationSpeed)
      (.enumOrInt .animationSpeed) (.clip 0 3)),
  (.setting .AUTOSTART_MODE,
    rwEntry CHAR_UUID_SETTINGS_AUTOSTART_MODE (.ofEnum .autostartMode)
      (.enumOrInt .autostartMode) (.clip 0 3)),
  (.setting .SHUTDOWN_TIME,
    rwEntry CHAR_UUID_SETTINGS_SHUTDOWN_TIME .uint .toInt (.clip 0 60)),
  (.setting .COOLING_TEMP_BLINK,
    rwEntry CHAR_UUID_SETTINGS_COOLING_TEMP_BLINK .boolNonzero .toBool .toInt),
  (.setting .IDLE_SCREEN_DETAILS,
    rwEntry CHAR_UUID_SETTINGS_IDLE_SCREEN_DETAILS .boolNonzero .toBool .toInt),
  (.setting .SOLDER_SCREEN_DETAILS,
    rwEntry CHAR_UUID_SETTINGS_SOLDER_SCREEN_DETAILS .boolNonzero .toBool .toInt),
  (.setting .TEMP_UNIT,
    rwEntry CHAR_UUID_SETTINGS_TEMP_UNIT (.ofEnum .tempUnit)
      (.enumOrInt .tempUnit) (.clip 0 1)),
  (.setting .DESC_SCROLL_SPEED,
    rwEntry CHAR_UUID_SETTINGS_DESC_SCROLL_SPEED (.ofEnum .scrollSpeed)
      (.enumOrInt .scrollSpeed) (.clip 0 1)),
  (.setting .LOCKING_MODE,
    rwEntry CHAR_UUID_SETTINGS_LOCKING_MODE (.ofEnum .lockingMode)
      (.enumOrInt .lockingMode) (.clip 0 2)),
  (.setting .KEEP_AWAKE_PULSE_POWER,
    rwEntry CHAR_UUID_SETTINGS_KEEP_AWAKE_PULSE_POWER .divTen .timesTen
      (.clip 0 99)),
  (.setting .KEEP_AWAKE_PULSE_DELAY,
    rwEntry CHAR_UUID_SETTINGS_KEEP_AWAKE_PULSE_DELAY .uint .toInt (.clip 0 9)),
  (.setting .KEEP_AWAKE_PULSE_DURATION,
    rwEntry CHAR_UUID_SETTINGS_KEEP_AWAKE_PULSE_DURATION .uint .toInt
      (.clip 0 9)),
  (.setting .VOLTAGE_DIV,
    rwEntry CHAR_UUID_SETTINGS_VOLTAGE_DIV .uint .toInt (.clip 360 900)),
  (.setting .BOOST_TEMP,
    rwEntry CHAR_UUID_SETTINGS_BOOST_TEMP .uint .toInt (.clipUnlessZero 250 450)),
  (.setting .CALIBRATION_OFFSET,
    rwEntry CHAR_UUID_SETTINGS_CALIBRATION_OFFSET .uint .toInt (.clip 100 2500)),
  (.setting .POWER_LIMIT,
    rwEntry CHAR_UUID_SETTINGS_POWER_LIMIT .divTen .timesTen (.clip 0 120)),
  (.setting .INVERT_BUTTONS,
    rwEntry CHAR_UUID_SETTINGS_INVERT_BUTTONS .boolNonzero .toBool .toInt),
  (.setting .TEMP_INCREMENT_LONG,
    rwEntry CHAR_UUID_SETTINGS_TEMP_INCREMENT_LONG .uint .toInt (.clip 5 90)),
  (.setting .TEMP_INCREMENT_SHORT,
    rwEntry CHAR_UUID_SETTINGS_TEMP_INCREMENT_SHORT .uint .toInt (.clip 1 50)),
  (.setting .HALL_SENSITIVITY,
    rwEntry CHAR_UUID_SETTINGS_HALL_SENSITIVITY .uint .toInt (.clip 0 9)),
  (.setting .ACCEL_WARN_COUNTER,
    rwEntry CHAR_UUID_SETTINGS_ACCEL_WARN_COUNTER .uint .toInt (.clip 0 9)),
  (.setting .PD_WARN_COUNTER,
    rwEntry CHAR_UUID_SETTINGS_PD_WARN_COUNTER .uint .toInt (.clip 0 9)),
  (.setting .UI_LANGUAGE,
    rwEntry CHAR_UUID_SETTINGS_UI_LANGUAGE .langCode .langCode (.clip 0 65535)),
  (.setting .PD_NEGOTIATION_TIMEOUT,
    rwEntry CHAR_UUID_SETTINGS_PD_NEGOTIATION_TIMEOUT .divTen .timesTen
      (.clip 0 50)),
  (.setting .DISPLAY_INVERT,
    rwEntry CHAR_UUID_SETTINGS_DISPLAY_INVERT .boolNonzero .toBool .toInt),
  (.setting .DISPLAY_BRIGHTNESS,
    rwEntry CHAR_UUID_SETTINGS_DISPLAY_BRIGHTNESS .brightness .brightness
      (.clip 1 101)),
  (.setting .LOGO_DURATION,
    rwEntry CHAR_UUID_SETTINGS_LOGO_DURATION (.ofEnum .logoDuration)
      (.enumOrInt .lockingMode) (.clip 0 6)),
  (.setting .CALIBRATE_CJC,
    rwEntry CHAR_UUID_SETTINGS_CALIBRATE_CJC .boolNonzero .toBool .toInt),
  (.setting .BLE_ENABLED,
    rwEntry CHAR_UUID_SETTINGS_BLE_ENABLED .constTrue .toBool .toInt),
  (.setting .USB_PD_MODE,
    rwEntry CHAR_UUID_SETTINGS_USB_PD_MODE .boolNonzero .toBool .toInt),
  (.setting .SETTINGS_SAVE,
    rwEntry CHAR_UUID_SETTINGS_SAVE .boolNonzero .toBool .toInt),
  (.setting .SETTINGS_RESET,
    rwEntry CHAR_UUID_SETTINGS_RESET .boolNonzero .toBool .toInt)]

/-- `CHAR_MAP.get(characteristic, default)`: dictionary lookup. -/
def charMapGet (c : Characteristic) : Option Entry :=
  (CHAR_MAP.find? fun p => decide (p.1 = c)).map (·.2)

/-! ## The read/write protocol of `Pynecil.read` / `Pynecil.write`

The BLE transport is a collaborator; an operation's interaction with it is
modelled by the list of transport calls it performs, in order.  An
operation that raises before its first transport call therefore returns an
empty call list (and, having performed no call, leaves client and device
state unchanged). -/

/-- A transport call made through the Bleak client. -/
inductive Call
  | connect
  | readGatt (uuid : Uuid)
  | writeGatt (uuid : Uuid) (data : List Nat)
deriving DecidableEq, Repr

/-- `Pynecil.read` (client.py), given the raw bytes the device would answer
with: unknown characteristics return `None` before any transport call;
otherwise the client connects, reads the GATT characteristic and decodes
(`none` as first component models an exception raised by the decoder). -/
def read (characteristic : Characteristic) (deviceRaw : List Nat) :
    Option DecodedVal × List Call :=
  match charMapGet characteristic with
  | none => (none, [])
  | some e => (applyDec e.dec deviceRaw, [.connect, .readGatt e.uuid])

/-- `Pynecil.write` (client.py).  The registry entry is unpacked into
`uuid, _, convert, validate`; a missing entry leaves `convert`/`validate`
as `None` and raises `ValueError`, and a 2-tuple (read-only) entry raises
`ValueError` at the tuple unpacking — both before any transport call.
`validate(convert(value))` runs next, still before any transport call.
Only then does the client connect and write `encode_int(data)`; the
`OverflowError` `encode_int` can raise occurs after `connect()` but before
the GATT write. -/
def write (setting : Characteristic) (value : PyVal) :
    Except PyErr Unit × List Call :=
  match charMapGet setting with
  | none => (.error .valueError, [])
  | some e =>
    match e.cv with
    | none => (.error .valueError, [])
    | some (convert, validate) =>
      match applyConv convert value with
      | .error err => (.error err, [])
      | .ok out =>
        let data := applyValid validate out
        match encode_int data with
        | none => (.error .overflowError, [.connect])
        | some bytes => (.ok (), [.connect, .writeGatt e.uuid bytes])

/-! ## Helper lemmas -/

/-- A successful registry lookup is membership in the association list. -/
theorem charMapGet_mem (c : Characteristic) (e : Entry)
    (h : charMapGet c = some e) : (c, e) ∈ CHAR_MAP := by
  unfold charMapGet at h
  rcases Option.map_eq_some'.mp h with ⟨p, hfind, hsnd⟩
  have hmem := List.mem_of_find?_eq_some hfind
  have hkey : p.1 = c := by simpa using List.find?_some hfind
  have hpe : p = (c, e) := Prod.ext hkey hsnd
  rwa [hpe] at hmem

/-! ## Claim theorems -/

set_option maxRecDepth 10000 in
/-- C1 counterexample: `CHAR_MAP` has no entry at all for
`CharBulk.ACCEL_NAME` and none for `CharLive.MAX_TIP_TEMP_ABILITY`, so the
mapping is not total over the three characteristic enums. -/
theorem charMap_missing_entries :
    CHAR_MAP.countP (fun p => decide (p.1 = .bulk .ACCEL_NAME)) = 0 ∧
    CHAR_MAP.countP (fun p => decide (p.1 = .live .MAX_TIP_TEMP_ABILITY)) = 0 := by
  decide

set_option maxRecDepth 100000 in
/-- C1 (amended): every `Characteristic` enum value except
`CharLive.MAX_TIP_TEMP_ABILITY` and `CharBulk.ACCEL_NAME` has exactly one
`CHAR_MAP` entry; those two have none. -/
theorem charMap_total_except_two :
    ∀ c : Characteristic,
      c ≠ .live .MAX_TIP_TEMP_ABILITY → c ≠ .bulk .ACCEL_NAME →
      CHAR_MAP.countP (fun p => decide (p.1 = c)) = 1 := by
  decide

/-- C1 witness: the amended totality theorem applied to the
setpoint-temperature setting. -/
theorem charMap_total_except_two_witness :
    CHAR_MAP.countP
      (fun p => decide (p.1 = .setting CharSetting.SETPOINT_TEMP)) = 1 :=
  charMap_total_except_two (.setting .SETPOINT_TEMP) (by decide) (by decide)

/-- C7: `Pynecil.write` on a characteristic without a converter/validator
pair in the registry — a read-only 2-tuple entry or an unregistered key —
raises `ValueError` synchronously, with an empty transport-call list (no
`connect`, no GATT write), hence no state change.  This is the behaviour
the spec names InvalidOperation. -/
theorem write_readonly_raises (c : Characteristic) (v : PyVal)
    (h : ((charMapGet c).bind fun e => e.cv) = none) :
    write c v = (.error .valueError, []) := by
  rcases hc : charMapGet c with _ | e
  · simp [write, hc]
  · rcases hcv : e.cv with _ | p
    · simp [write, hc, hcv]
    · rw [hc] at h
      simp [hcv] at h

/-- C7 witness: writing to the read-only live-temperature characteristic. -/
theorem write_readonly_raises_witness :
    ((charMapGet (.live .LIVE_TEMP)).bind fun e => e.cv) = none ∧
    write (.live .LIVE_TEMP) (.int 300) = (.error .valueError, []) :=
  ⟨by decide, write_readonly_raises _ _ (by decide)⟩

/-- C8: `Pynecil.read` on a characteristic with no registry entry returns
`None` with an empty transport-call list (no `connect`, no GATT read). -/
theorem read_unknown_returns_none (c : Characteristic) (raw : List Nat)
    (h : charMapGet c = none) : read c raw = (none, []) := by
  simp [read, h]

/-- C8 witness: reading the unregistered `CharBulk.ACCEL_NAME`. -/
theorem read_unknown_returns_none_witness :
    charMapGet (.bulk .ACCEL_NAME) = none ∧
    read (.bulk .ACCEL_NAME) [1, 2] = (none, []) :=
  ⟨by decide, read_unknown_returns_none _ _ (by decide)⟩

/-- C9: `decode_lang_code` returns the raw integer unchanged whenever it is
not in the `LanguageCode` table (no error), and the matching member
whenever it is. -/
theorem decode_lang_code_fallback (raw : List Nat) :
    (LanguageCode.ofInt? (decode_int raw) = none →
      decode_lang_code raw = .num (decode_int raw)) ∧
    (∀ c, LanguageCode.ofInt? (decode_int raw) = some c →
      decode_lang_code raw = .lang c) := by
  constructor
  · intro h
    simp [decode_lang_code, h]
  · intro c h
    simp [decode_lang_code, h]

/-- C9 witness: `1` is not in the table and falls through unchanged;
`41431` (bytes `d7 a1`) is the EN constant. -/
theorem decode_lang_code_fallback_witness :
    decode_lang_code [1, 0] = .num 1 ∧
    decode_lang_code [215, 161] = .lang .EN :=
  ⟨by simpa using (decode_lang_code_fallback [1, 0]).1 (by decide),
    (decode_lang_code_fallback [215, 161]).2 .EN (by decide)⟩

set_option maxRecDepth 100000 in
/-- C2 counterexample: the claim predicts
`encode_lang_code("xx") = SHA1("xx") mod 65536 = 48616`, but the code
reduces the digest `% 0xFFFF` (= 65535) and returns `8781`. -/
theorem encode_lang_code_xx_not_mod65536 :
    encode_lang_code (.str "xx") = .ok 8781 ∧
    sha1Nat (utf8Bytes "xx") % 65536 = 48616 ∧
    (8781 : Int) ≠ ((48616 : Nat) : Int) := by
  refine ⟨by decide, by decide, by decide⟩

set_option maxRecDepth 100000 in
/-- C2 (amended): a `LanguageCode` member encodes to its stored constant
directly; an arbitrary string encodes to the SHA-1 digest of its UTF-8
bytes read as a big integer and reduced modulo 65535 (`0xFFFF`), so
`encode_lang_code("xx") = SHA1("xx") mod 65535 = 8781`, deterministically
(`SHA1("xx") = 0xdd7b7b74ea160e049dd128478e074ce47254bde8`). -/
theorem encode_lang_code_spec :
    (∀ lc : LanguageCode,
      encode_lang_code (.enum (.languageCode lc)) = .ok (lc.value : Int)) ∧
    (∀ s : String,
      encode_lang_code (.str s) =
        .ok ((sha1Nat (utf8Bytes s) % 65535 : Nat) : Int)) ∧
    encode_lang_code (.str "xx") = .ok 8781 ∧
    sha1Nat (utf8Bytes "xx") =
      0xdd7b7b74ea160e049dd128478e074ce47254bde8 := by
  refine ⟨fun lc => rfl, fun s => rfl, by decide, by decide⟩

/-- Little-endian bytes of an unsigned 32-bit word, as packed by
`struct.pack("14I", ...)` for the fixture payload. -/
def leBytes4 (w : Nat) : List Nat :=
  [w % 256, w / 256 % 256, w / 65536 % 256, w / 16777216 % 256]

/-- The 56-byte payload packing the 14 little-endian 32-bit fixture words
`[241, 240, 201, 299, 255, 3, 62, 581, 194, 440, 5726, 0, 1, 25]`. -/
def liveFixturePayload : List Nat :=
  ([241, 240, 201, 299, 255, 3, 62, 581, 194, 440, 5726, 0, 1,
    25].map leBytes4).flatten

set_option maxRecDepth 10000 in
/-- C4: `decode_live_data` on the 56-byte fixture payload returns exactly
the expected record: temperatures pass through, voltages / resistance /
times / power are divided by 10, the PWM level is `int(255/255*100) = 100`,
field 5 maps to `PowerSource.PD` and field 12 to
`OperatingMode.SOLDERING`. -/
theorem decode_live_data_fixture :
    liveFixturePayload.length = 56 ∧
    decode_live_data liveFixturePayload = some
      { live_temp := 241
        setpoint_temp := 240
        dc_voltage := (20.1 : ℚ)
        handle_temp := (29.9 : ℚ)
        pwm_level := 100
        power_src := .PD
        tip_resistance := (6.2 : ℚ)
        uptime := (58.1 : ℚ)
        movement_time := (19.4 : ℚ)
        max_tip_temp_ability := 440
        tip_voltage := 5726
        hall_sensor := 0
        operating_mode := .SOLDERING
        estimated_power := (2.5 : ℚ) } := by
  refine ⟨rfl, ?_⟩
  norm_num [decode_live_data, liveFixturePayload, leBytes4, decode_int,
    ratTrunc, PowerSource.ofInt?, OperatingMode.ofInt?]

/-- Shared pipeline lemma: a registry entry whose converter is `bool` and
whose validator is `int` writes wire value 1 for truthy inputs and 0 for
falsy inputs. -/
theorem write_toBool_toInt (c : Characteristic) (e : Entry)
    (h : charMapGet c = some e) (hcv : e.cv = some (Conv.toBool, Valid.toInt))
    (v : PyVal) :
    write c v = (.ok (), [.connect, .writeGatt e.uuid
      [if pyTruthy v then 1 else 0, 0]]) := by
  cases hb : pyTruthy v <;>
    simp [write, h, hcv, applyConv, applyValid, ConvOut.toInt, encode_int, hb]

/-- C5 counterexample: the `SETTINGS_SAVE` / `SETTINGS_RESET` pipeline is
`int(bool(value))`, not a forced constant — input 0 writes wire bytes
`00 00` while input 1 writes `01 00`. -/
theorem settings_save_reset_not_constant :
    write (.setting .SETTINGS_SAVE) (.int 0) =
      (.ok (), [.connect, .writeGatt CHAR_UUID_SETTINGS_SAVE [0, 0]]) ∧
    write (.setting .SETTINGS_SAVE) (.int 1) =
      (.ok (), [.connect, .writeGatt CHAR_UUID_SETTINGS_SAVE [1, 0]]) ∧
    write (.setting .SETTINGS_RESET) (.int 0) ≠
      write (.setting .SETTINGS_RESET) (.int 1) := by
  refine ⟨by decide, by decide, by decide⟩

/-- C5 (amended): for `SETTINGS_SAVE` and `SETTINGS_RESET` the registry's
validation pipeline encodes the input's truthiness — wire value 1 for any
truthy input and 0 for any falsy input (`int(bool(value))`), like the
other boolean settings, rather than one fixed constant. -/
theorem settings_save_reset_truthiness (v : PyVal) :
    write (.setting .SETTINGS_SAVE) v =
      (.ok (), [.connect, .writeGatt CHAR_UUID_SETTINGS_SAVE
        [if pyTruthy v then 1 else 0, 0]]) ∧
    write (.setting .SETTINGS_RESET) v =
      (.ok (), [.connect, .writeGatt CHAR_UUID_SETTINGS_RESET
        [if pyTruthy v then 1 else 0, 0]]) :=
  ⟨write_toBool_toInt (.setting .SETTINGS_SAVE)
      (rwEntry CHAR_UUID_SETTINGS_SAVE .boolNonzero .toBool .toInt)
      (by decide) rfl v,
    write_toBool_toInt (.setting .SETTINGS_RESET)
      (rwEntry CHAR_UUID_SETTINGS_RESET .boolNonzero .toBool .toInt)
      (by decide) rfl v⟩

/-- Registry audit: every entry whose converter is `bool` has validator
`int`, decoder `bool(decode_int(x))` — except `BLE_ENABLED`, whose decoder
is the constant `True` lambda. -/
theorem charmap_bool_flag_shapes :
    CHAR_MAP.all (fun p =>
      match p.2.cv with
      | some (Conv.toBool, vd) =>
          vd == Valid.toInt &&
          (!(decide (p.1 = .setting .BLE_ENABLED)) ||
            (p.2.dec == Dec.constTrue)) &&
          ((decide (p.1 = .setting .BLE_ENABLED)) ||
            (p.2.dec == Dec.boolNonzero))
      | _ => true) = true := by decide

/-- C6 counterexample: the `BLE_ENABLED` decoder returns `True` for the
zero raw value as well (it is `lambda _: True`), so it does not map zero
to `False`. -/
theorem ble_enabled_decodes_zero_as_true :
    decode_int [0, 0] = 0 ∧
    (charMapGet (.setting .BLE_ENABLED)).map (fun e => applyDec e.dec [0, 0])
      = some (some (.bool true)) := by
  refine ⟨by decide, by decide⟩

/-- C6 (amended): for every boolean-flag setting (converter `bool`) the
write pipeline encodes truthy to wire 1 and falsy to wire 0; every such
setting except `BLE_ENABLED` decodes a nonzero raw integer to `True` and
zero to `False`, while `BLE_ENABLED` decodes every raw value to `True`. -/
theorem bool_flag_codec (c : Characteristic) (e : Entry)
    (h : charMapGet c = some e) (vd : Valid)
    (hcv : e.cv = some (Conv.toBool, vd)) :
    (∀ v : PyVal, write c v = (.ok (), [.connect, .writeGatt e.uuid
      [if pyTruthy v then 1 else 0, 0]])) ∧
    (c ≠ .setting .BLE_ENABLED →
      ∀ raw, applyDec e.dec raw = some (.bool (decode_int raw != 0))) ∧
    (c = .setting .BLE_ENABLED →
      ∀ raw, applyDec e.dec raw = some (.bool true)) := by
  have hmem := charMapGet_mem c e h
  have hall := List.all_eq_true.mp charmap_bool_flag_shapes _ hmem
  rw [hcv] at hall
  simp only [Bool.and_eq_true, Bool.or_eq_true, beq_iff_eq,
    Bool.not_eq_eq_eq_not, Bool.not_true, decide_eq_false_iff_not,
    decide_eq_true_eq] at hall
  obtain ⟨⟨hvd, hble⟩, hnotble⟩ := hall
  subst hvd
  refine ⟨write_toBool_toInt c e h hcv, ?_, ?_⟩
  · intro hne raw
    rcases hnotble with hceq | hdec
    · exact absurd hceq hne
    · rw [hdec]
      rfl
  · intro hceq raw
    rcases hble with hcne | hdec
    · exact absurd hceq hcne
    · rw [hdec]
      rfl

/-- C6 witness: the amended theorem at `ANIMATION_LOOP` — writing `True`
produces wire bytes `01 00`, and the `bool(decode_int(x))` decoder maps
raw zero to `False`. -/
theorem bool_flag_codec_witness :
    write (.setting .ANIMATION_LOOP) (.bool true) =
      (.ok (), [.connect,
        .writeGatt CHAR_UUID_SETTINGS_ANIMATION_LOOP [1, 0]]) ∧
    applyDec Dec.boolNonzero [0, 0] = some (.bool false) := by
  have h := bool_flag_codec (.setting .ANIMATION_LOOP)
    (rwEntry CHAR_UUID_SETTINGS_ANIMATION_LOOP .boolNonzero .toBool .toInt)
    (by decide) Valid.toInt rfl
  exact ⟨by simpa using h.1 (.bool true),
    by simpa using h.2.1 (by decide) [0, 0]⟩

/-- Registry audit: every entry with converter `int` and a plain `clip`
validator has bounds `0 ≤ lo ≤ hi < 65536`, so the clipped value always
fits the 2-byte wire encoding. -/
theorem charmap_clip_bounds :
    CHAR_MAP.all (fun p =>
      match p.2.cv with
      | some (Conv.toInt, Valid.clip lo hi) =>
          decide (0 ≤ lo) && decide (lo ≤ hi) && decide (hi < 65536)
      | _ => true) = true := by decide

/-- C3: for every setting whose registry entry has converter `int` and
validator `clip(x, lo, hi)`, and every integer `x`, the write pipeline
produces wire bytes that decode back to `clip(x, lo, hi)`, and writing `x`
produces exactly the same result as writing the already-clipped value. -/
theorem clip_settings_roundtrip (c : Characteristic) (e : Entry)
    (lo hi : Int) (h : charMapGet c = some e)
    (hcv : e.cv = some (Conv.toInt, Valid.clip lo hi)) (x : Int) :
    ∃ bytes,
      write c (.int x) = (.ok (), [.connect, .writeGatt e.uuid bytes]) ∧
      (decode_int bytes : Int) = clip x lo hi ∧
      write c (.int x) = write c (.int (clip x lo hi)) := by
  have hmem := charMapGet_mem c e h
  have hb := List.all_eq_true.mp charmap_clip_bounds _ hmem
  rw [hcv] at hb
  simp only [Bool.and_eq_true, decide_eq_true_eq] at hb
  obtain ⟨⟨hlo0, hlohi⟩, hhi⟩ := hb
  have hdlo : lo ≤ clip x lo hi := le_max_right _ _
  have hdhi : clip x lo hi ≤ hi := max_le (min_le_right x hi) hlohi
  have h0 : 0 ≤ clip x lo hi := le_trans hlo0 hdlo
  have hlt : clip x lo hi < 65536 := lt_of_le_of_lt hdhi hhi
  have henc : encode_int (clip x lo hi) =
      some [(clip x lo hi).toNat % 256, (clip x lo hi).toNat / 256] := by
    unfold encode_int
    rw [if_pos ⟨h0, hlt⟩]
  have hidem : clip (clip x lo hi) lo hi = clip x lo hi := by
    show max (min (clip x lo hi) hi) lo = clip x lo hi
    rw [min_eq_left hdhi, max_eq_left hdlo]
  refine ⟨[(clip x lo hi).toNat % 256, (clip x lo hi).toNat / 256],
    ?_, ?_, ?_⟩
  · simp [write, h, hcv, applyConv, pyInt, Except.map, applyValid,
      ConvOut.toInt, henc]
  · simp only [decode_int, List.foldr]
    omega
  · simp [write, h, hcv, applyConv, pyInt, Except.map, applyValid,
      ConvOut.toInt, henc, hidem]

/-- C3 witness: the setpoint-temperature setting (range 10–450) at
`x = 900`: the wire bytes decode to `clip(900, 10, 450) = 450` and writing
900 equals writing the clipped 450. -/
theorem clip_settings_roundtrip_witness :
    charMapGet (.setting .SETPOINT_TEMP) =
      some (rwEntry CHAR_UUID_SETTINGS_SETPOINT_TEMP .uint .toInt
        (.clip 10 450)) ∧
    (∃ bytes,
      write (.setting .SETPOINT_TEMP) (.int 900) =
        (.ok (), [.connect, .writeGatt
          (rwEntry CHAR_UUID_SETTINGS_SETPOINT_TEMP .uint .toInt
            (.clip 10 450)).uuid bytes]) ∧
      (decode_int bytes : Int) = clip 900 10 450 ∧
      write (.setting .SETPOINT_TEMP) (.int 900) =
        write (.setting .SETPOINT_TEMP) (.int (clip 900 10 450))) ∧
    write (.setting .SETPOINT_TEMP) (.int 900) =
      write (.setting .SETPOINT_TEMP) (.int 450) :=
  ⟨by decide,
    clip_settings_roundtrip _ _ 10 450 (by decide) rfl 900,
    by decide⟩

/-- C10: the `LOGO_DURATION` converter unwraps `.value` only for
`LockingMode` instances (the source checks `isinstance(x, LockingMode)`)
and applies `int()` to everything else, so every `LogoDuration` member
raises `TypeError` before any transport call, while `LockingMode` members
and raw integers are accepted and encoded. -/
theorem logo_duration_write_members (v : LogoDuration) :
    write (.setting .LOGO_DURATION) (.enum (.logoDuration v)) =
      (.error .typeError, []) ∧
    (∀ m : LockingMode,
      write (.setting .LOGO_DURATION) (.enum (.lockingMode m)) =
        (.ok (), [.connect, .writeGatt CHAR_UUID_SETTINGS_LOGO_DURATION
          [m.value, 0]])) ∧
    (∀ n : Int,
      write (.setting .LOGO_DURATION) (.int n) =
        (.ok (), [.connect, .writeGatt CHAR_UUID_SETTINGS_LOGO_DURATION
          [(clip n 0 6).toNat, 0]])) := by
  refine ⟨rfl, fun m => by cases m <;> decide, fun n => ?_⟩
  have h : charMapGet (.setting .LOGO_DURATION) =
      some (rwEntry CHAR_UUID_SETTINGS_LOGO_DURATION (.ofEnum .logoDuration)
        (.enumOrInt .lockingMode) (.clip 0 6)) := by decide
  have h0 : 0 ≤ clip n 0 6 := le_max_right _ _
  have h6 : clip n 0 6 ≤ 6 := max_le (min_le_right n 6) (by norm_num)
  have hlt : clip n 0 6 < 65536 := lt_of_le_of_lt h6 (by norm_num)
  have henc : encode_int (clip n 0 6) =
      some [(clip n 0 6).toNat % 256, (clip n 0 6).toNat / 256] := by
    unfold encode_int
    rw [if_pos ⟨h0, hlt⟩]
  have hmod : (clip n 0 6).toNat % 256 = (clip n 0 6).toNat :=
    Nat.mod_eq_of_lt (by omega)
  have hdiv : (clip n 0 6).toNat / 256 = 0 :=
    Nat.div_eq_of_lt (by omega)
  simp [write, h, rwEntry, applyConv, pyInt, Except.map, applyValid,
    ConvOut.toInt, henc, hmod, hdiv]

end Pynecil
